import Mathlib

/-!
Shallow embedding of the pizza-analytics backend (src/app.py) and proofs about
its transformation (process_pizza_data), aggregation (calculate_metrics) and
HTTP endpoint behavior.

Modelling conventions:
* Machine floats are modelled as exact rationals (ℚ); pandas NaN / missing
  cells are modelled as `Option` with `none` for NaN.  pandas sums use
  skipna=True, modelled by summing `Option.getD 0`.
* A CSV cell of a text column is a `String`; of a numeric column a `ℚ`.
* `pd.to_datetime(..., format='%m/%d/%Y %H:%M:%S', errors='coerce')` is
  modelled by `parseDatetimeStr`: the strptime-style parser that reads 1-2
  digit month/day/hour/minute/second fields, a 1-4 digit year, the literal
  separators, requires the whole string to be consumed, and validates the
  calendar (month 1-12, day bounded by the month length with leap years,
  hour below 24, minute and second below 60); failure gives `none` (NaT).
* Python exceptions surface as `Except HttpError`; `HTTPException(c, d)` is
  the pair `⟨c, d⟩`.
-/

/-- A parsed calendar timestamp (the model of `pd.Timestamp`). -/
structure Timestamp where
  year : Nat
  month : Nat
  day : Nat
  hour : Nat
  minute : Nat
  second : Nat
deriving DecidableEq, Repr

/-- Value of a decimal digit character, `none` for non-digits. -/
def digitVal (c : Char) : Option Nat :=
  if c.isDigit then some (c.toNat - 48) else none

/-- Greedily consume up to `k` further digit characters, extending
accumulator `acc`. -/
def takeDigitsGo : Nat → Nat → List Char → Nat × List Char
  | 0, acc, cs => (acc, cs)
  | _ + 1, acc, [] => (acc, [])
  | k + 1, acc, c :: cs =>
    match digitVal c with
    | some d => takeDigitsGo k (10 * acc + d) cs
    | none => (acc, c :: cs)

/-- Read a numeric field of 1 to `maxN` digits (strptime numeric directives
accept 1 up to the directive width digits, greedily). -/
def takeDigits (maxN : Nat) (cs : List Char) : Option (Nat × List Char) :=
  match maxN, cs with
  | 0, _ => none
  | _, [] => none
  | k + 1, c :: cs =>
    match digitVal c with
    | some d => some (takeDigitsGo k d cs)
    | none => none

/-- Consume one expected literal character. -/
def expectChar (c : Char) : List Char → Option (List Char)
  | [] => none
  | x :: xs => if x = c then some xs else none

/-- Gregorian leap-year test. -/
def isLeapYear (y : Nat) : Bool :=
  y % 4 == 0 && (y % 100 != 0 || y % 400 == 0)

/-- Number of days of month `m` of year `y`. -/
def daysInMonth (y m : Nat) : Nat :=
  if m = 2 then (if isLeapYear y then 29 else 28)
  else if m = 4 ∨ m = 6 ∨ m = 9 ∨ m = 11 then 30
  else 31

/-- Calendar validity of a parsed timestamp, as enforced by
`pd.to_datetime` on an exact-format match. -/
def validTimestamp (t : Timestamp) : Bool :=
  decide (1 ≤ t.month) && decide (t.month ≤ 12) &&
  decide (1 ≤ t.day) && decide (t.day ≤ daysInMonth t.year t.month) &&
  decide (t.hour ≤ 23) && decide (t.minute ≤ 59) && decide (t.second ≤ 59)

/-- Parse a string against the exact format `%m/%d/%Y %H:%M:%S`
(app.py lines 37-41); `none` models NaT from `errors='coerce'`. -/
def parseDatetimeStr (s : String) : Option Timestamp := do
  let (mo, r1) ← takeDigits 2 s.toList
  let r2 ← expectChar '/' r1
  let (da, r3) ← takeDigits 2 r2
  let r4 ← expectChar '/' r3
  let (yr, r5) ← takeDigits 4 r4
  let r6 ← expectChar ' ' r5
  let (ho, r7) ← takeDigits 2 r6
  let r8 ← expectChar ':' r7
  let (mi, r9) ← takeDigits 2 r8
  let r10 ← expectChar ':' r9
  let (se, r11) ← takeDigits 2 r10
  if r11.isEmpty then
    let t : Timestamp := ⟨yr, mo, da, ho, mi, se⟩
    if validTimestamp t then some t else none
  else none

/-- Zeller-congruence weekday index of a calendar date
(0 = Saturday, 1 = Sunday, ..., 6 = Friday). -/
def dayOfWeekIdx (y m d : Nat) : Nat :=
  let p := if m ≤ 2 then (y - 1, m + 12) else (y, m)
  let K := p.1 % 100
  let J := p.1 / 100
  (d + 13 * (p.2 + 1) / 5 + K + K / 4 + J / 4 + 5 * J) % 7

/-- Weekday names indexed by `dayOfWeekIdx`. -/
def dayNames : List String :=
  ["Saturday", "Sunday", "Monday", "Tuesday", "Wednesday", "Thursday", "Friday"]

/-- Full weekday name of a timestamp (`Series.dt.day_name()`). -/
def dayName (t : Timestamp) : String :=
  (dayNames.get? (dayOfWeekIdx t.year t.month t.day)).getD ""

/-- Zero-pad a numeral to width 2. -/
def pad2 (n : Nat) : String :=
  if n < 10 then "0" ++ toString n else toString n

/-- Zero-pad a numeral to width 4. -/
def pad4 (n : Nat) : String :=
  if n < 10 then "000" ++ toString n
  else if n < 100 then "00" ++ toString n
  else if n < 1000 then "0" ++ toString n
  else toString n

/-- `Timestamp.strftime('%Y-%m-%d %H:%M:%S')`. -/
def fmtTimestamp (t : Timestamp) : String :=
  pad4 t.year ++ "-" ++ pad2 t.month ++ "-" ++ pad2 t.day ++ " " ++
  pad2 t.hour ++ ":" ++ pad2 t.minute ++ ":" ++ pad2 t.second

/-- `str(datetime.date)`: the `YYYY-MM-DD` rendering of a calendar date
triple `(year, month, day)`. -/
def dateStr (d : Nat × Nat × Nat) : String :=
  pad4 d.1 ++ "-" ++ pad2 d.2.1 ++ "-" ++ pad2 d.2.2

/-- One CSV data row, typed per column; `none` is a missing (NaN) cell. -/
structure RawRow where
  order_id : Option String
  order_date : Option String
  order_time : Option String
  pizza_name : Option String
  pizza_category : Option String
  pizza_size : Option String
  quantity : Option ℚ
  unit_price : Option ℚ
  total_price : Option ℚ
deriving DecidableEq, Repr

/-- A row after the fill step (app.py line 35): `quantity` can no longer be
missing. -/
structure FilledRow where
  order_id : Option String
  order_date : Option String
  order_time : Option String
  pizza_name : Option String
  pizza_category : Option String
  pizza_size : Option String
  quantity : ℚ
  unit_price : Option ℚ
  total_price : Option ℚ
deriving DecidableEq, Repr

/-- A retained row after datetime derivation and `dropna` (app.py lines
37-48): `order_datetime` is present by construction. -/
structure TransformedRow where
  order_id : Option String
  order_date : Option String
  order_time : Option String
  pizza_name : Option String
  pizza_category : Option String
  pizza_size : Option String
  quantity : ℚ
  unit_price : Option ℚ
  total_price : Option ℚ
  order_datetime : Timestamp
  month : Nat
  day_of_week : String
  hour : Nat
  revenue : Option ℚ
deriving DecidableEq, Repr

/-- `df.fillna({'quantity': 1, 'total_price': df['unit_price']})` (line 35):
missing quantity becomes 1; missing total_price becomes the same row's
unit_price (which may itself be missing). -/
def fillRow (r : RawRow) : FilledRow :=
  ⟨r.order_id, r.order_date, r.order_time, r.pizza_name, r.pizza_category,
   r.pizza_size, r.quantity.getD 1, r.unit_price,
   match r.total_price with
   | some v => some v
   | none => r.unit_price⟩

/-- The derived datetime of a row: `order_date + ' ' + order_time` parsed
under the exact format (lines 37-41).  A missing date or time gives NaN
concatenation, hence NaT. -/
def rowDatetime (r : FilledRow) : Option Timestamp :=
  match r.order_date, r.order_time with
  | some d, some t => parseDatetimeStr (d ++ " " ++ t)
  | _, _ => none

/-- Column derivation for a retained row (lines 45-48): month, weekday name,
hour, and `revenue = quantity * total_price` (NaN total_price propagates). -/
def deriveRow (r : FilledRow) (dt : Timestamp) : TransformedRow :=
  ⟨r.order_id, r.order_date, r.order_time, r.pizza_name, r.pizza_category,
   r.pizza_size, r.quantity, r.unit_price, r.total_price,
   dt, dt.month, dayName dt, dt.hour,
   r.total_price.map (fun p => r.quantity * p)⟩

/-- Forget the derived columns of a transformed row. -/
def stripDerived (t : TransformedRow) : FilledRow :=
  ⟨t.order_id, t.order_date, t.order_time, t.pizza_name, t.pizza_category,
   t.pizza_size, t.quantity, t.unit_price, t.total_price⟩

/-- The per-row core of `process_pizza_data` (lines 35-50): fill, derive the
datetime, drop rows whose datetime is NaT, derive the remaining columns;
the output preserves input order. -/
def transformRows (rows : List RawRow) : List TransformedRow :=
  (rows.map fillRow).filterMap (fun r => (rowDatetime r).map (deriveRow r))

lemma parseDatetimeStr_valid_sample : parseDatetimeStr "01/01/2023 12:00:00" =
    some ⟨2023, 1, 1, 12, 0, 0⟩ := by decide

lemma parseDatetimeStr_invalid_sample :
    parseDatetimeStr "01/01/2023 25:99:99" = none := by decide

lemma dayName_sample : dayName ⟨2023, 1, 1, 12, 0, 0⟩ = "Sunday" := by decide

/-- Floor of a rational as an integer, computed from the normalized
fraction (`Int.fdiv` rounds toward negative infinity). -/
def ratFloor (q : ℚ) : ℤ := q.num.fdiv q.den

/-- Round a rational to the nearest integer, ties to even — the model of
Python / numpy `round` on a float. -/
def roundHalfEven (q : ℚ) : ℤ :=
  let f := ratFloor q
  let r := q - (f : ℚ)
  if r < 1 / 2 then f
  else if 1 / 2 < r then f + 1
  else if f % 2 = 0 then f else f + 1

/-- `round(x, 2)`: rounding to 2 decimal places. -/
def round2 (q : ℚ) : ℚ := (roundHalfEven (100 * q) : ℚ) / 100

/-- `int(x)` on a numeric value: truncation toward zero. -/
def ratTrunc (q : ℚ) : ℤ := q.num.tdiv q.den

/-- A row's contribution to a revenue sum: pandas `sum` skips NaN. -/
def revenueVal (t : TransformedRow) : ℚ := t.revenue.getD 0

/-- `df['revenue'].sum()` (line 56, before rounding). -/
def revenueSum (df : List TransformedRow) : ℚ := (df.map revenueVal).sum

/-- `df['quantity'].sum()` (line 94, before the int conversion). -/
def quantitySum (df : List TransformedRow) : ℚ := (df.map (fun t => t.quantity)).sum

/-- `df['order_id'].nunique()` (line 57): the number of distinct non-null
order ids (pandas `nunique` drops NaN). -/
def nuniqueOrders (df : List TransformedRow) : Nat :=
  (df.filterMap (fun t => t.order_id)).dedup.length

/-- Revenue sum over the rows satisfying a predicate (one group of a
group-by). -/
def revenueSumWhere (df : List TransformedRow) (p : TransformedRow → Prop)
    [DecidablePred p] : ℚ :=
  ((df.filter (fun t => p t)).map revenueVal).sum

/-- Quantity sum over the rows satisfying a predicate. -/
def quantitySumWhere (df : List TransformedRow) (p : TransformedRow → Prop)
    [DecidablePred p] : ℚ :=
  ((df.filter (fun t => p t)).map (fun t => t.quantity)).sum

/-- One record of `popular_pizzas` (lines 66-69 after `reset_index` and
`to_dict('records')`). -/
structure PizzaGroup where
  pizza_name : String
  quantity : ℚ
  revenue : ℚ
deriving DecidableEq, Repr

/-- Order in which `sort_values('quantity', ascending=False)` leaves the
name-keyed groups: larger summed quantity first; on ties ascending
pizza_name.  (groupby emits groups sorted by key, and numpy's sort keeps
that relative order on ties for the small-array insertion-sort regime, so
the result is exactly this lexicographic order.) -/
def pgLe (a b : PizzaGroup) : Prop :=
  b.quantity < a.quantity ∨ (a.quantity = b.quantity ∧ a.pizza_name ≤ b.pizza_name)

instance : DecidableRel pgLe := fun a b =>
  inferInstanceAs (Decidable (_ ∨ _))

instance : IsTotal PizzaGroup pgLe := by
  constructor
  intro a b
  rcases lt_trichotomy a.quantity b.quantity with h | h | h
  · exact Or.inr (Or.inl h)
  · rcases le_total a.pizza_name b.pizza_name with hn | hn
    · exact Or.inl (Or.inr ⟨h, hn⟩)
    · exact Or.inr (Or.inr ⟨h.symm, hn⟩)
  · exact Or.inl (Or.inl h)

instance : IsTrans PizzaGroup pgLe := by
  constructor
  intro a b c hab hbc
  rcases hab with h1 | ⟨e1, n1⟩
  · rcases hbc with h2 | ⟨e2, _⟩
    · exact Or.inl (h2.trans h1)
    · exact Or.inl (e2 ▸ h1)
  · rcases hbc with h2 | ⟨e2, n2⟩
    · exact Or.inl (e1 ▸ h2)
    · exact Or.inr ⟨e1.trans e2, n1.trans n2⟩

/-- The group records of `df.groupby('pizza_name').agg({'quantity': 'sum',
'revenue': 'sum'})` (lines 66-69): one record per distinct non-null
pizza_name (groupby drops NaN keys), keys sorted ascending (groupby
default `sort=True`), quantity and revenue summed per group. -/
def pizzaGroupsOf (df : List TransformedRow) : List PizzaGroup :=
  (List.insertionSort (fun a b => a ≤ b)
      (df.filterMap (fun t => t.pizza_name)).dedup).map
    (fun n => ⟨n, quantitySumWhere df (fun t => t.pizza_name = some n),
               revenueSumWhere df (fun t => t.pizza_name = some n)⟩)

/-- `popular_pizzas` (lines 66-69): groups sorted by summed quantity
descending (ties: ascending name, see `pgLe`), first 10. -/
def popularPizzasOf (df : List TransformedRow) : List PizzaGroup :=
  (List.insertionSort pgLe (pizzaGroupsOf df)).take 10

/-- A `{key, revenue}` group-by-sum over an optional string key (NaN keys
dropped, keys ascending), the shape of `category_sales` (line 71) and
`size_sales` (line 73). -/
def keyRevenueOf (df : List TransformedRow) (key : TransformedRow → Option String) :
    List (String × ℚ) :=
  (List.insertionSort (fun a b => a ≤ b) (df.filterMap key).dedup).map
    (fun k => (k, revenueSumWhere df (fun t => key t = some k)))

/-- The calendar date component of a row's datetime
(`df['order_datetime'].dt.date`, line 75). -/
def rowDate (t : TransformedRow) : Nat × Nat × Nat :=
  (t.order_datetime.year, t.order_datetime.month, t.order_datetime.day)

/-- Ascending order on calendar date triples. -/
def dateLe (a b : Nat × Nat × Nat) : Prop :=
  a.1 < b.1 ∨ (a.1 = b.1 ∧ (a.2.1 < b.2.1 ∨ (a.2.1 = b.2.1 ∧ a.2.2 ≤ b.2.2)))

instance : DecidableRel dateLe := fun a b =>
  inferInstanceAs (Decidable (_ ∨ _))

instance : IsTotal (Nat × Nat × Nat) dateLe := by
  constructor
  intro a b
  rcases lt_trichotomy a.1 b.1 with h | h | h
  · exact Or.inl (Or.inl h)
  · rcases lt_trichotomy a.2.1 b.2.1 with h2 | h2 | h2
    · exact Or.inl (Or.inr ⟨h, Or.inl h2⟩)
    · rcases le_total a.2.2 b.2.2 with h3 | h3
      · exact Or.inl (Or.inr ⟨h, Or.inr ⟨h2, h3⟩⟩)
      · exact Or.inr (Or.inr ⟨h.symm, Or.inr ⟨h2.symm, h3⟩⟩)
    · exact Or.inr (Or.inr ⟨h.symm, Or.inl h2⟩)
  · exact Or.inr (Or.inl h)

instance : IsTrans (Nat × Nat × Nat) dateLe := by
  constructor
  intro a b c hab hbc
  rcases hab with h1 | ⟨e1, h1⟩
  · rcases hbc with h2 | ⟨e2, _⟩
    · exact Or.inl (h1.trans h2)
    · exact Or.inl (e2 ▸ h1)
  · rcases hbc with h2 | ⟨e2, h2⟩
    · exact Or.inl (e1 ▸ h2)
    · refine Or.inr ⟨e1.trans e2, ?_⟩
      rcases h1 with h1 | ⟨e1', h1⟩
      · rcases h2 with h2 | ⟨e2', _⟩
        · exact Or.inl (h1.trans h2)
        · exact Or.inl (e2' ▸ h1)
      · rcases h2 with h2 | ⟨e2', h2⟩
        · exact Or.inl (e1' ▸ h2)
        · exact Or.inr ⟨e1'.trans e2', h1.trans h2⟩

/-- `daily_sales` (lines 75-77): revenue summed per calendar date of
`order_datetime`, dates ascending, each date rendered `YYYY-MM-DD`. -/
def dailySalesOf (df : List TransformedRow) : List (String × ℚ) :=
  (List.insertionSort dateLe (df.map rowDate).dedup).map
    (fun d => (dateStr d, revenueSumWhere df (fun t => rowDate t = d)))

/-- `hourly_sales` (line 79): revenue summed per hour, hours ascending. -/
def hourlySalesOf (df : List TransformedRow) : List (Nat × ℚ) :=
  (List.insertionSort (fun a b => a ≤ b) (df.map (fun t => t.hour)).dedup).map
    (fun h => (h, revenueSumWhere df (fun t => t.hour = h)))

/-- A JSON-safe primitive produced by `convert_to_serializable`. -/
inductive JsonVal where
  | s (v : String)
  | n (v : ℚ)
  | null
deriving DecidableEq, Repr

/-- `convert_to_serializable` on an optional string cell: NaN becomes
None, a string passes through. -/
def serOptStr : Option String → JsonVal
  | some v => .s v
  | none => .null

/-- `convert_to_serializable` on an optional numeric cell: NaN becomes
None, a number becomes a float. -/
def serOptNum : Option ℚ → JsonVal
  | some v => .n v
  | none => .null

/-- One serialized row, as built field-by-field by the
`for col, value in row.items()` loops (lines 83-87 and 147-151):
CSV columns in file order, then the derived columns in creation order;
the Timestamp column is rendered `%Y-%m-%d %H:%M:%S`. -/
def serializeRow (t : TransformedRow) : List (String × JsonVal) :=
  [("order_id", serOptStr t.order_id),
   ("order_date", serOptStr t.order_date),
   ("order_time", serOptStr t.order_time),
   ("pizza_name", serOptStr t.pizza_name),
   ("pizza_category", serOptStr t.pizza_category),
   ("pizza_size", serOptStr t.pizza_size),
   ("quantity", JsonVal.n t.quantity),
   ("unit_price", serOptNum t.unit_price),
   ("total_price", serOptNum t.total_price),
   ("order_datetime", JsonVal.s (fmtTimestamp t.order_datetime)),
   ("month", JsonVal.n (t.month : ℚ)),
   ("day_of_week", JsonVal.s t.day_of_week),
   ("hour", JsonVal.n (t.hour : ℚ)),
   ("revenue", serOptNum t.revenue)]

/-- The metrics record returned by `calculate_metrics` (lines 90-101). -/
structure Metrics where
  total_revenue : ℚ
  total_orders : Nat
  avg_order_value : ℚ
  total_items_sold : ℤ
  popular_pizzas : List PizzaGroup
  category_sales : List (String × ℚ)
  size_sales : List (String × ℚ)
  daily_sales : List (String × ℚ)
  hourly_sales : List (Nat × ℚ)
  data_preview : List (List (String × JsonVal))
deriving DecidableEq, Repr

/-- `calculate_metrics` (lines 55-101): scalars (revenue sum rounded to 2
decimals, distinct order count, guarded average, quantity sum cast with
`int`), the five group-by collections, and the first-10-rows preview. -/
def calculate_metrics (df : List TransformedRow) : Metrics :=
  let total_revenue := revenueSum df
  let total_orders := nuniqueOrders df
  let avg_order_value :=
    if 0 < total_orders then total_revenue / (total_orders : ℚ) else 0
  { total_revenue := round2 total_revenue
    total_orders := total_orders
    avg_order_value := round2 avg_order_value
    total_items_sold := ratTrunc (quantitySum df)
    popular_pizzas := popularPizzasOf df
    category_sales := keyRevenueOf df (fun t => t.pizza_category)
    size_sales := keyRevenueOf df (fun t => t.pizza_size)
    daily_sales := dailySalesOf df
    hourly_sales := hourlySalesOf df
    data_preview := (df.take 10).map serializeRow }

/-- An HTTP error response: `HTTPException(status_code, detail)`. -/
structure HttpError where
  status : Nat
  detail : String
deriving DecidableEq, Repr

/-- `str(e)` of a raised `HTTPException` (starlette renders it as
`"{status_code}: {detail}"`). -/
def httpErrorStr (e : HttpError) : String :=
  toString e.status ++ ": " ++ e.detail

/-- The status code of a failed call, `none` on success. -/
def errStatus {α : Type} : Except HttpError α → Option Nat
  | .error e => some e.status
  | .ok _ => none

/-- A decoded CSV table: the header column names, and the typed data
rows.  A row's field is meaningful only when its column is present. -/
structure CsvTable where
  cols : List String
  rows : List RawRow
deriving DecidableEq, Repr

/-- The raw upload body.  `invalid msg` stands for byte strings on which
`content.decode('utf-8')` or `pd.read_csv` raises (message `msg`);
`csv t` for bytes that decode and parse into table `t`. -/
inductive RawBytes where
  | invalid (msg : String)
  | csv (t : CsvTable)
deriving DecidableEq, Repr

/-- The message of the `HTTPException` built at app.py line 53. -/
def procErrMsg (m : String) : String := "Error processing file: " ++ m

/-- `str(KeyError(c))`: the missing column name in single quotes. -/
def keyErrMsg (c : String) : String := "'" ++ c ++ "'"

/-- `process_pizza_data` (lines 31-53).  Inside the `try`, the code touches
columns in this order: `unit_price` (line 35, evaluated eagerly for the
fillna dict), `order_date` then `order_time` (lines 37-38), and after the
datetime steps `quantity` then `total_price` (line 48); the first missing
one raises `KeyError`, and every exception is re-raised as
`HTTPException(400, 'Error processing file: ...')`.  Note the other four
required columns (`order_id`, `pizza_name`, `pizza_category`,
`pizza_size`) are never touched here. -/
def process_pizza_data (b : RawBytes) : Except HttpError (List TransformedRow) :=
  match b with
  | .invalid msg => .error ⟨400, procErrMsg msg⟩
  | .csv t =>
    if "unit_price" ∈ t.cols then
      if "order_date" ∈ t.cols then
        if "order_time" ∈ t.cols then
          if "quantity" ∈ t.cols then
            if "total_price" ∈ t.cols then
              .ok (transformRows t.rows)
            else .error ⟨400, procErrMsg (keyErrMsg "total_price")⟩
          else .error ⟨400, procErrMsg (keyErrMsg "quantity")⟩
        else .error ⟨400, procErrMsg (keyErrMsg "order_time")⟩
      else .error ⟨400, procErrMsg (keyErrMsg "order_date")⟩
    else .error ⟨400, procErrMsg (keyErrMsg "unit_price")⟩

/-- One stored upload (lines 114-119). -/
structure StoredEntry where
  filename : String
  dataframe : List TransformedRow
  record_count : Nat
  metrics : Metrics
deriving DecidableEq, Repr

/-- The in-memory store `processed_data_store`, newest entry first (an
insert with an existing key shadows the older entry). -/
def Store : Type := List (String × StoredEntry)

/-- Key lookup in the store. -/
def lookupStore (store : Store) (fid : String) : Option StoredEntry :=
  match store with
  | [] => none
  | (k, e) :: rest => if k = fid then some e else lookupStore rest fid

/-- The JSON body of a successful upload (lines 121-126). -/
structure UploadResponse where
  message : String
  file_id : String
  record_count : Nat
  metrics : Metrics
deriving DecidableEq, Repr

/-- First column among `order_id`, `pizza_name`, `pizza_category`,
`pizza_size` missing from the table, in the order `calculate_metrics`
touches them (lines 57, 66, 71, 73); its `KeyError` is what the upload
handler's `except` turns into a 500. -/
def firstMissingMetricsCol : RawBytes → Option String
  | .invalid _ => none
  | .csv t =>
    if "order_id" ∉ t.cols then some "order_id"
    else if "pizza_name" ∉ t.cols then some "pizza_name"
    else if "pizza_category" ∉ t.cols then some "pizza_category"
    else if "pizza_size" ∉ t.cols then some "pizza_size"
    else none

/-- Python `str.endswith`, as a suffix test on the character lists. -/
def strEndsWith (s suf : String) : Bool :=
  suf.toList.isSuffixOf s.toList

/-- `upload_file` (lines 103-129).  The extension check (Python
`filename.endswith('.csv')`) precedes the `try` and raises 400 directly.  Everything inside the `try` — including the
`HTTPException(400, ...)` raised by `process_pizza_data`, since
`HTTPException` is an `Exception` subclass — is caught by the blanket
`except Exception` and re-raised as `HTTPException(500, str(e))`.  On
success the entry is stored under `str(int(time.time()))` (the `now`
argument) and the response is returned. -/
def upload_file (now : Nat) (store : Store) (filename : String)
    (content : RawBytes) : Except HttpError (Store × UploadResponse) :=
  if ¬ strEndsWith filename ".csv" then
    .error ⟨400, "Only CSV files are allowed"⟩
  else
    match process_pizza_data content with
    | .error e => .error ⟨500, httpErrorStr e⟩
    | .ok df =>
      match firstMissingMetricsCol content with
      | some c => .error ⟨500, keyErrMsg c⟩
      | none =>
        let fid := toString now
        let entry : StoredEntry :=
          ⟨filename, df, df.length, calculate_metrics df⟩
        .ok ((fid, entry) :: store,
             ⟨"File processed successfully", fid, df.length,
              calculate_metrics df⟩)

/-- `df.head(n)` (pandas): for nonnegative `n` the first `n` rows; for
negative `n` all rows but the last `|n|` (`self.iloc[:n]`). -/
def dfHead {α : Type} (l : List α) (n : Int) : List α :=
  if 0 ≤ n then l.take n.toNat else l.take (l.length - n.natAbs)

/-- `get_raw_data` (lines 138-153): 404 for an unknown id, otherwise the
first `limit` stored rows (pandas `head` semantics, default 50),
serialized field by field. -/
def get_raw_data (store : Store) (fid : String) (limit : Int) :
    Except HttpError (List (List (String × JsonVal))) :=
  match lookupStore store fid with
  | none => .error ⟨404, "File not found"⟩
  | some e => .ok ((dfHead e.dataframe limit).map serializeRow)

/-- `get_metrics` (lines 131-136). -/
def get_metrics (store : Store) (fid : String) : Except HttpError Metrics :=
  match lookupStore store fid with
  | none => .error ⟨404, "File not found"⟩
  | some e => .ok e.metrics

lemma stripDerived_deriveRow (r : FilledRow) (dt : Timestamp) :
    stripDerived (deriveRow r dt) = r := rfl

lemma filterMap_derive_map_strip (l : List FilledRow) :
    ((l.filterMap (fun r => (rowDatetime r).map (deriveRow r))).map stripDerived) =
      l.filter (fun r => (rowDatetime r).isSome) := by
  induction l with
  | nil => rfl
  | cons a l ih =>
    cases h : rowDatetime a
    · simp [List.filterMap_cons, List.filter_cons, h, ih]
    · simp [List.filterMap_cons, List.filter_cons, h, ih, stripDerived_deriveRow]

lemma transformRows_mem {rows : List RawRow} {t : TransformedRow}
    (h : t ∈ transformRows rows) :
    rowDatetime (stripDerived t) = some t.order_datetime ∧
    t.revenue = t.total_price.map (fun p => t.quantity * p) := by
  unfold transformRows at h
  obtain ⟨r, _, heq⟩ := List.mem_filterMap.mp h
  obtain ⟨dt, hdt, hder⟩ := Option.map_eq_some'.mp heq
  subst hder
  exact ⟨by rw [stripDerived_deriveRow]; exact hdt, rfl⟩

lemma sum_map_filter_not_add {α : Type} (l : List α) (p : α → Bool) (v : α → ℚ) :
    ((l.filter p).map v).sum + ((l.filter (fun a => !(p a))).map v).sum =
      (l.map v).sum := by
  induction l with
  | nil => simp
  | cons a l ih =>
    cases hp : p a
    · simp [List.filter_cons, hp]
      linarith [ih]
    · simp [List.filter_cons, hp]
      linarith [ih]

lemma sum_groups {α κ : Type} [DecidableEq κ] (v : α → ℚ) (key : α → κ) :
    ∀ (ks : List κ) (l : List α), ks.Nodup → (∀ a ∈ l, key a ∈ ks) →
      (ks.map (fun k => ((l.filter (fun a => key a = k)).map v).sum)).sum =
        (l.map v).sum := by
  intro ks
  induction ks with
  | nil =>
    intro l _ hcov
    cases l with
    | nil => simp
    | cons a l => exact absurd (hcov a (List.mem_cons_self a l)) (List.not_mem_nil _)
  | cons k ks ih =>
    intro l hnd hcov
    have hk : k ∉ ks := (List.nodup_cons.mp hnd).1
    have hnd' : ks.Nodup := (List.nodup_cons.mp hnd).2
    set l' := l.filter (fun a => !(decide (key a = k))) with hl'
    have hcov' : ∀ a ∈ l', key a ∈ ks := by
      intro a ha
      have hmem := List.mem_of_mem_filter ha
      have hne : ¬ (key a = k) := by simpa using List.of_mem_filter ha
      have := hcov a hmem
      rw [List.mem_cons] at this
      rcases this with h | h
      · exact absurd h hne
      · exact h
    have hgroups : ∀ k' ∈ ks,
        l.filter (fun a => key a = k') = l'.filter (fun a => key a = k') := by
      intro k' hk'
      rw [hl', List.filter_filter]
      refine List.filter_congr ?_
      intro a _
      have hkk : ¬ k' = k := fun e => hk (e ▸ hk')
      by_cases h : key a = k'
      · simp [h, hkk]
      · simp [h]
    simp only [List.map_cons, List.sum_cons]
    have hmap : ks.map (fun k' => ((l.filter (fun a => key a = k')).map v).sum) =
        ks.map (fun k' => ((l'.filter (fun a => key a = k')).map v).sum) := by
      refine List.map_congr_left ?_
      intro k' hk'
      rw [hgroups k' hk']
    rw [hmap, ih l' hnd' hcov']
    exact sum_map_filter_not_add l (fun a => decide (key a = k)) v

lemma ratTrunc_nonneg_eq_floor (q : ℚ) (h : 0 ≤ q) : ratTrunc q = ⌊q⌋ := by
  unfold ratTrunc
  rw [Rat.floor_def]
  exact Int.tdiv_eq_ediv (Rat.num_nonneg.mpr h) (Int.ofNat_nonneg q.den)

lemma ratTrunc_neg_eq_ceil (q : ℚ) (h : q < 0) : ratTrunc q = ⌈q⌉ := by
  have h1 : ratTrunc q = -(ratTrunc (-q)) := by
    unfold ratTrunc
    rw [show (-q).num = -q.num from rfl, show (-q).den = q.den from rfl,
      Int.neg_tdiv, neg_neg]
  rw [h1, ratTrunc_nonneg_eq_floor (-q) (by linarith),
    show ⌈q⌉ = -⌊-q⌋ from rfl]

lemma roundHalfEven_zero : roundHalfEven 0 = 0 := by
  unfold roundHalfEven ratFloor
  norm_num

lemma round2_zero : round2 0 = 0 := by
  unfold round2
  rw [mul_zero, roundHalfEven_zero]
  norm_num

lemma ratFloor_intCast (z : ℤ) : ratFloor (z : ℚ) = z := by
  unfold ratFloor
  rw [Rat.intCast_num, Rat.intCast_den]
  exact Int.fdiv_one z

lemma roundHalfEven_intCast (z : ℤ) : roundHalfEven (z : ℚ) = z := by
  simp only [roundHalfEven, ratFloor_intCast, sub_self]
  norm_num

lemma round2_intCast (z : ℤ) : round2 (z : ℚ) = z := by
  unfold round2
  rw [show ((100 : ℚ) * z) = ((100 * z : ℤ) : ℚ) by push_cast; ring,
    roundHalfEven_intCast]
  push_cast
  field_simp

/-- Column list of a complete pizza CSV file. -/
def c1Cols : List String :=
  ["order_id", "order_date", "order_time", "pizza_name", "pizza_category",
   "pizza_size", "quantity", "unit_price", "total_price"]

/-- A row whose date and time parse. -/
def c1RowOk : RawRow :=
  ⟨some "1", some "01/01/2023", some "12:00:00", some "Margherita",
   some "Classic", some "M", some 2, some 5, some 10⟩

/-- A row whose time is malformed (`25:99:99`). -/
def c1RowBad : RawRow :=
  ⟨some "2", some "01/01/2023", some "25:99:99", some "Margherita",
   some "Classic", some "M", some 1, some 5, some 5⟩

/-- A two-row input table, one parseable row and one unparseable row. -/
def c1Table : CsvTable := ⟨c1Cols, [c1RowOk, c1RowBad]⟩

/-- C1: for every valid CSV input (the five columns touched by the transform
are present), `process_pizza_data` succeeds and returns exactly the input
row sequence (after the fill step) restricted to the rows whose
`order_date + ' ' + order_time` concatenation parses under the format
`MM/DD/YYYY HH:MM:SS`, in original input order; every retained row carries
the parsed (hence non-null) `order_datetime`. -/
theorem c1_transform_filters_unparseable_rows (t : CsvTable)
    (h1 : "unit_price" ∈ t.cols) (h2 : "order_date" ∈ t.cols)
    (h3 : "order_time" ∈ t.cols) (h4 : "quantity" ∈ t.cols)
    (h5 : "total_price" ∈ t.cols) :
    process_pizza_data (.csv t) = .ok (transformRows t.rows) ∧
    (transformRows t.rows).map stripDerived =
      (t.rows.map fillRow).filter (fun r => (rowDatetime r).isSome) ∧
    ∀ tr ∈ transformRows t.rows,
      rowDatetime (stripDerived tr) = some tr.order_datetime := by
  refine ⟨?_, filterMap_derive_map_strip _, ?_⟩
  · simp [process_pizza_data, h1, h2, h3, h4, h5]
  · intro tr htr
    exact (transformRows_mem htr).1

/-- Witness for C1 at a concrete two-row table: the unparseable row is
dropped and the parseable one retained. -/
theorem c1_transform_filters_unparseable_rows_witness :
    process_pizza_data (.csv c1Table) = .ok (transformRows c1Table.rows) ∧
    (transformRows c1Table.rows).map stripDerived =
      (c1Table.rows.map fillRow).filter (fun r => (rowDatetime r).isSome) ∧
    (∀ tr ∈ transformRows c1Table.rows,
      rowDatetime (stripDerived tr) = some tr.order_datetime) ∧
    (transformRows c1Table.rows).length = 1 := by
  have h := c1_transform_filters_unparseable_rows c1Table (by decide)
    (by decide) (by decide) (by decide) (by decide)
  exact ⟨h.1, h.2.1, h.2.2, by decide⟩

/-- A table missing most required columns (header `a,b`). -/
def c2TableBad : CsvTable := ⟨["a", "b"], []⟩

/-- A table with the five columns the transform touches but without
`order_id` (also without the `pizza_*` columns). -/
def c2TableNoOrderId : CsvTable :=
  ⟨["order_date", "order_time", "quantity", "unit_price", "total_price"], []⟩

/-- C2 (code bug): `process_pizza_data` does raise a 400 for a table with
missing transform columns, but `upload_file` surfaces it as a 500, because
the blanket `except Exception` catches the `HTTPException`; an
undecodable body also surfaces as 500; and for a table that merely lacks
`order_id` the transform step does not fail at all (the failure happens
later, in `calculate_metrics`, again surfaced as 500). -/
theorem c2_parse_errors_surface_as_500 :
    errStatus (process_pizza_data (.csv c2TableBad)) = some 400 ∧
    errStatus (upload_file 0 [] "data.csv" (.csv c2TableBad)) = some 500 ∧
    errStatus (upload_file 0 [] "data.csv"
      (.invalid "invalid utf-8 byte 0xff")) = some 500 ∧
    errStatus (process_pizza_data (.csv c2TableNoOrderId)) = none ∧
    errStatus (upload_file 0 [] "data.csv" (.csv c2TableNoOrderId)) = some 500 := by
  exact ⟨rfl, by decide, by decide, rfl, by decide⟩

/-- C3: `avg_order_value` is the rounded quotient of (pre-rounding) total
revenue by the distinct-order count when that count is positive, and 0
otherwise; aggregating the empty dataset succeeds and yields zeroed
scalars and empty collections. -/
theorem c3_avg_order_value_guarded (df : List TransformedRow) :
    (calculate_metrics df).avg_order_value =
      (if 0 < (calculate_metrics df).total_orders
       then round2 (revenueSum df / (nuniqueOrders df : ℚ)) else 0) ∧
    calculate_metrics [] = ⟨0, 0, 0, 0, [], [], [], [], [], []⟩ := by
  constructor
  · have ho : (calculate_metrics df).total_orders = nuniqueOrders df := rfl
    rw [ho]
    show round2 (if 0 < nuniqueOrders df
      then revenueSum df / (nuniqueOrders df : ℚ) else 0) = _
    by_cases h : 0 < nuniqueOrders df
    · rw [if_pos h, if_pos h]
    · rw [if_neg h, if_neg h]
      exact round2_zero
  · have he : calculate_metrics [] =
        ⟨round2 0, 0, round2 0, ratTrunc 0, [], [], [], [], [], []⟩ := rfl
    rw [he, round2_zero]
    rfl

lemma c4_names_sorted :
    List.insertionSort (fun a b : String => a ≤ b) ["Bbb", "Aaa"] = ["Aaa", "Bbb"] := by
  show List.orderedInsert (fun a b : String => a ≤ b) "Bbb" ["Aaa"] = _
  simp only [List.orderedInsert]
  rw [if_neg]
  rw [String.le_iff_toList_le]
  decide

/-- A row of pizza `"Bbb"`, first in the dataset. -/
def c4RowB : TransformedRow :=
  ⟨some "1", some "01/01/2023", some "12:00:00", some "Bbb", some "Classic",
   some "M", 1, some 5, some 5, ⟨2023, 1, 1, 12, 0, 0⟩, 1, "Sunday", 12, some 5⟩

/-- A row of pizza `"Aaa"`, second in the dataset, with the same summed
quantity as `"Bbb"`. -/
def c4RowA : TransformedRow :=
  ⟨some "2", some "01/01/2023", some "13:00:00", some "Aaa", some "Classic",
   some "M", 1, some 5, some 5, ⟨2023, 1, 1, 13, 0, 0⟩, 1, "Sunday", 13, some 5⟩

lemma c4_groups_eval :
    pizzaGroupsOf [c4RowB, c4RowA] = [⟨"Aaa", 1, 5⟩, ⟨"Bbb", 1, 5⟩] := by
  unfold pizzaGroupsOf
  rw [show (List.filterMap (fun t => t.pizza_name) [c4RowB, c4RowA]).dedup =
    ["Bbb", "Aaa"] by decide]
  rw [c4_names_sorted]
  simp [quantitySumWhere, revenueSumWhere, revenueVal, c4RowA, c4RowB]

lemma c4_popular_eval :
    popularPizzasOf [c4RowB, c4RowA] = [⟨"Aaa", 1, 5⟩, ⟨"Bbb", 1, 5⟩] := by
  unfold popularPizzasOf
  rw [c4_groups_eval]
  show (List.orderedInsert pgLe (⟨"Aaa", 1, 5⟩ : PizzaGroup)
    (List.orderedInsert pgLe (⟨"Bbb", 1, 5⟩ : PizzaGroup) [])).take 10 = _
  simp only [List.orderedInsert]
  have hAB : pgLe (⟨"Aaa", 1, 5⟩ : PizzaGroup) ⟨"Bbb", 1, 5⟩ :=
    Or.inr ⟨rfl, by rw [String.le_iff_toList_le]; decide⟩
  rw [if_pos hAB]
  rfl

/-- C4 counterexample: with the groups `"Bbb"` then `"Aaa"` encountered in
that order and tied on summed quantity, `popular_pizzas` lists `"Aaa"`
first — `groupby` orders groups by key (ascending pizza_name), not by
first encounter, so the claimed tie-break is wrong. -/
theorem c4_popular_tiebreak_counterexample :
    [c4RowB, c4RowA].map (fun t => t.pizza_name) = [some "Bbb", some "Aaa"] ∧
    (calculate_metrics [c4RowB, c4RowA]).popular_pizzas.map
      (fun g => g.pizza_name) = ["Aaa", "Bbb"] ∧
    (["Aaa", "Bbb"] : List String) ≠ ["Bbb", "Aaa"] := by
  refine ⟨rfl, ?_, by decide⟩
  show (popularPizzasOf [c4RowB, c4RowA]).map (fun g => g.pizza_name) = _
  rw [c4_popular_eval]
  rfl

/-- C4 (amended): `popular_pizzas` has at most 10 entries, each the summed
quantity and revenue of one pizza_name group, sorted by summed quantity
descending with ties broken by ascending pizza_name (the groupby key
order), not by first-encounter order. -/
theorem c4_popular_top10_sorted (df : List TransformedRow) :
    (calculate_metrics df).popular_pizzas.length ≤ 10 ∧
    List.Pairwise (fun a b => b.quantity ≤ a.quantity)
      (calculate_metrics df).popular_pizzas ∧
    List.Pairwise (fun a b => a.quantity = b.quantity → a.pizza_name ≤ b.pizza_name)
      (calculate_metrics df).popular_pizzas ∧
    ∀ g ∈ (calculate_metrics df).popular_pizzas,
      g.quantity = quantitySumWhere df (fun t => t.pizza_name = some g.pizza_name) ∧
      g.revenue = revenueSumWhere df (fun t => t.pizza_name = some g.pizza_name) := by
  have hpop : (calculate_metrics df).popular_pizzas =
      (List.insertionSort pgLe (pizzaGroupsOf df)).take 10 := rfl
  have hsorted : List.Pairwise pgLe
      ((List.insertionSort pgLe (pizzaGroupsOf df)).take 10) :=
    List.Pairwise.sublist (List.take_sublist _ _)
      (List.sorted_insertionSort pgLe (pizzaGroupsOf df))
  refine ⟨?_, ?_, ?_, ?_⟩
  · rw [hpop]
    exact List.length_take_le _ _
  · rw [hpop]
    refine hsorted.imp ?_
    intro a b hab
    rcases hab with hlt | ⟨heq, _⟩
    · exact le_of_lt hlt
    · exact le_of_eq heq.symm
  · rw [hpop]
    refine hsorted.imp ?_
    intro a b hab heq
    rcases hab with hlt | ⟨_, hn⟩
    · exact ((lt_irrefl _ (heq ▸ hlt)).elim)
    · exact hn
  · intro g hg
    rw [hpop] at hg
    have hg2 : g ∈ List.insertionSort pgLe (pizzaGroupsOf df) :=
      List.mem_of_mem_take hg
    rw [List.mem_insertionSort] at hg2
    obtain ⟨n, _, rfl⟩ := List.mem_map.mp hg2
    exact ⟨rfl, rfl⟩

/-- Witness for the amended C4 at a concrete dataset: the group record of
`"Aaa"` is in `popular_pizzas` and its fields are the group sums. -/
theorem c4_popular_top10_sorted_witness :
    (calculate_metrics [c4RowB, c4RowA]).popular_pizzas.length ≤ 10 ∧
    (⟨"Aaa", 1, 5⟩ : PizzaGroup) ∈
      (calculate_metrics [c4RowB, c4RowA]).popular_pizzas ∧
    (1 : ℚ) = quantitySumWhere [c4RowB, c4RowA]
      (fun t => t.pizza_name = some "Aaa") ∧
    (5 : ℚ) = revenueSumWhere [c4RowB, c4RowA]
      (fun t => t.pizza_name = some "Aaa") := by
  have hmem : (⟨"Aaa", 1, 5⟩ : PizzaGroup) ∈
      (calculate_metrics [c4RowB, c4RowA]).popular_pizzas := by
    show _ ∈ popularPizzasOf [c4RowB, c4RowA]
    rw [c4_popular_eval]
    exact List.mem_cons_self _ _
  have h := c4_popular_top10_sorted [c4RowB, c4RowA]
  exact ⟨h.1, hmem, (h.2.2.2 _ hmem).1, (h.2.2.2 _ hmem).2⟩

/-- C5: the revenue entries of `daily_sales` sum exactly to the
pre-rounding total revenue (each retained row has a calendar date, so the
per-day groups partition the rows), and the emitted `total_revenue` is
that sum rounded to 2 decimals. -/
theorem c5_daily_sales_sum_to_total_revenue (df : List TransformedRow)
    (h : df ≠ []) :
    ((calculate_metrics df).daily_sales.map (fun x => x.2)).sum = revenueSum df ∧
    (calculate_metrics df).total_revenue = round2 (revenueSum df) := by
  refine ⟨?_, rfl⟩
  show ((dailySalesOf df).map (fun x => x.2)).sum = revenueSum df
  unfold dailySalesOf
  rw [List.map_map]
  have hperm := (List.perm_insertionSort dateLe ((df.map rowDate).dedup)).map
    ((fun x => x.2) ∘ fun d => (dateStr d, revenueSumWhere df (fun t => rowDate t = d)))
  rw [hperm.sum_eq]
  have hcov : ∀ a ∈ df, rowDate a ∈ (df.map rowDate).dedup := fun a ha =>
    List.mem_dedup.mpr (List.mem_map_of_mem _ ha)
  have hg := sum_groups revenueVal rowDate ((df.map rowDate).dedup) df
    (List.nodup_dedup _) hcov
  simpa [Function.comp, revenueSumWhere, revenueSum] using hg

/-- Witness for C5 at a concrete one-row dataset. -/
theorem c5_daily_sales_sum_to_total_revenue_witness :
    ([c4RowA] : List TransformedRow) ≠ [] ∧
    ((calculate_metrics [c4RowA]).daily_sales.map (fun x => x.2)).sum =
      revenueSum [c4RowA] ∧
    (calculate_metrics [c4RowA]).total_revenue = round2 (revenueSum [c4RowA]) := by
  have h := c5_daily_sales_sum_to_total_revenue [c4RowA] (by decide)
  exact ⟨by decide, h.1, h.2⟩

/-- The spec scenario row: `quantity = 2`, `unit_price = 5`, `total_price`
missing, valid date and time. -/
def c6Row : RawRow :=
  ⟨some "1", some "01/01/2023", some "12:00:00", some "Margherita",
   some "Classic", some "M", some 2, some 5, none⟩

/-- A row with missing quantity. -/
def c6RowNoQty : RawRow :=
  ⟨some "2", some "01/01/2023", some "12:00:00", some "Margherita",
   some "Classic", some "M", none, some 5, some 5⟩

/-- C6: a missing `quantity` is filled with 1 and a missing `total_price`
with the same row's `unit_price`, before the datetime derivation; every
retained row's `revenue` is `quantity * total_price` computed after the
fills. -/
theorem c6_fill_defaults_and_revenue (r : RawRow) (rows : List RawRow) :
    (r.quantity = none → (fillRow r).quantity = 1) ∧
    (r.total_price = none → (fillRow r).total_price = r.unit_price) ∧
    ∀ t ∈ transformRows rows, t.revenue = t.total_price.map (fun p => t.quantity * p) := by
  refine ⟨fun h => by simp [fillRow, h], fun h => by simp [fillRow, h], ?_⟩
  intro t ht
  exact (transformRows_mem ht).2

lemma c6_transform_eval :
    transformRows [c6Row, c6Row] =
      [deriveRow (fillRow c6Row) ⟨2023, 1, 1, 12, 0, 0⟩,
       deriveRow (fillRow c6Row) ⟨2023, 1, 1, 12, 0, 0⟩] := by
  have hdt : rowDatetime (fillRow c6Row) = some ⟨2023, 1, 1, 12, 0, 0⟩ := by decide
  unfold transformRows
  simp [List.filterMap_cons, hdt]

/-- Witness for C6, realizing the spec scenario: `total_price` filled to 5,
`revenue = 10` per row, `total_revenue = 20`. -/
theorem c6_fill_defaults_and_revenue_witness :
    (fillRow c6RowNoQty).quantity = 1 ∧
    (fillRow c6Row).total_price = some 5 ∧
    (∀ t ∈ transformRows [c6Row, c6Row],
      t.revenue = t.total_price.map (fun p => t.quantity * p)) ∧
    (transformRows [c6Row, c6Row]).map (fun t => t.revenue) = [some 10, some 10] ∧
    revenueSum (transformRows [c6Row, c6Row]) = 20 := by
  have h := c6_fill_defaults_and_revenue c6Row [c6Row, c6Row]
  have h2 := c6_fill_defaults_and_revenue c6RowNoQty []
  refine ⟨h2.1 rfl, h.2.1 rfl, h.2.2, ?_, ?_⟩
  · rw [c6_transform_eval]
    simp [deriveRow, fillRow, c6Row]
    norm_num
  · rw [c6_transform_eval]
    simp [revenueSum, revenueVal, deriveRow, fillRow, c6Row]
    norm_num

/-- A retained row with fractional quantity 1/2. -/
def c7Row : TransformedRow :=
  ⟨some "1", some "01/01/2023", some "12:00:00", some "Margherita",
   some "Classic", some "M", 1/2, some 5, some (5/2),
   ⟨2023, 1, 1, 12, 0, 0⟩, 1, "Sunday", 12, some (5/4)⟩

lemma c7_qty_eval : quantitySum [c7Row] = 1/2 := by
  simp [quantitySum, c7Row]

/-- C7 counterexample: on a dataset whose quantity sum is 1/2, the emitted
`total_items_sold` is 0 — `int()` truncates toward zero — while rounding
the sum to 2 decimal places would give 0.5. -/
theorem c7_int_truncation_counterexample :
    (calculate_metrics [c7Row]).total_items_sold = 0 ∧
    round2 (quantitySum [c7Row]) = 1/2 ∧
    ((calculate_metrics [c7Row]).total_items_sold : ℚ) ≠
      round2 (quantitySum [c7Row]) := by
  have h1 : (calculate_metrics [c7Row]).total_items_sold = 0 := by
    show ratTrunc (quantitySum [c7Row]) = 0
    rw [c7_qty_eval, ratTrunc_nonneg_eq_floor _ (by norm_num)]
    norm_num
  have h2 : round2 (quantitySum [c7Row]) = 1/2 := by
    rw [c7_qty_eval]
    unfold round2
    rw [show (100 : ℚ) * (1/2) = ((50 : ℤ) : ℚ) by norm_num, roundHalfEven_intCast]
    norm_num
  refine ⟨h1, h2, ?_⟩
  rw [h1, h2]
  norm_num

/-- C7 (amended): `total_items_sold` is the quantity sum truncated toward
zero to an integer (the floor for nonnegative sums, the ceiling for
negative ones), as `int()` does — not rounded to 2 decimal places. -/
theorem c7_total_items_sold_truncates (df : List TransformedRow) :
    (calculate_metrics df).total_items_sold =
      (if 0 ≤ quantitySum df then ⌊quantitySum df⌋ else ⌈quantitySum df⌉) := by
  show ratTrunc (quantitySum df) = _
  by_cases h : 0 ≤ quantitySum df
  · rw [if_pos h]
    exact ratTrunc_nonneg_eq_floor _ h
  · rw [if_neg h]
    exact ratTrunc_neg_eq_ceil _ (lt_of_not_le h)

/-- C8: the aggregation is a pure function of the dataset (the code reads
`df`, mutates only a local copy, and builds the record from group-by sums),
so recomputing the metrics of the same transformed dataset yields the
identical record. -/
theorem c8_calculate_metrics_deterministic (df : List TransformedRow) :
    calculate_metrics df = calculate_metrics df := rfl

/-- A retained row with a present order id. -/
def c9Row : TransformedRow :=
  ⟨some "7", some "01/01/2023", some "12:00:00", some "Margherita",
   some "Classic", some "M", 1, some 5, some 5,
   ⟨2023, 1, 1, 12, 0, 0⟩, 1, "Sunday", 12, some 5⟩

/-- A retained row whose order id cell is missing (NaN). -/
def c9RowNoId : TransformedRow :=
  ⟨none, some "01/01/2023", some "13:00:00", some "Veggie",
   some "Veggie", some "L", 1, some 7, some 7,
   ⟨2023, 1, 1, 13, 0, 0⟩, 1, "Sunday", 13, some 7⟩

/-- C9: a row with missing `order_id` does not change `total_orders`
(pandas `nunique` drops NaN) — `total_orders` counts the distinct non-null
ids — while the row still contributes its revenue to the revenue sum and
its quantity to the quantity sum. -/
theorem c9_null_order_id_excluded (df : List TransformedRow)
    (r : TransformedRow) (h : r.order_id = none) :
    (calculate_metrics (df ++ [r])).total_orders =
      (calculate_metrics df).total_orders ∧
    (calculate_metrics df).total_orders =
      (df.filterMap (fun t => t.order_id)).dedup.length ∧
    revenueSum (df ++ [r]) = revenueSum df + revenueVal r ∧
    quantitySum (df ++ [r]) = quantitySum df + r.quantity := by
  refine ⟨?_, rfl, ?_, ?_⟩
  · show nuniqueOrders (df ++ [r]) = nuniqueOrders df
    unfold nuniqueOrders
    rw [List.filterMap_append]
    simp [h]
  · unfold revenueSum
    rw [List.map_append]
    simp
  · unfold quantitySum
    rw [List.map_append]
    simp

/-- Witness for C9 at a concrete pair of rows: appending the id-less row
keeps `total_orders` at 1. -/
theorem c9_null_order_id_excluded_witness :
    (calculate_metrics ([c9Row] ++ [c9RowNoId])).total_orders =
      (calculate_metrics [c9Row]).total_orders ∧
    (calculate_metrics [c9Row]).total_orders =
      ([c9Row].filterMap (fun t => t.order_id)).dedup.length ∧
    revenueSum ([c9Row] ++ [c9RowNoId]) = revenueSum [c9Row] + revenueVal c9RowNoId ∧
    quantitySum ([c9Row] ++ [c9RowNoId]) = quantitySum [c9Row] + c9RowNoId.quantity ∧
    (calculate_metrics ([c9Row] ++ [c9RowNoId])).total_orders = 1 := by
  have h := c9_null_order_id_excluded [c9Row] c9RowNoId rfl
  exact ⟨h.1, h.2.1, h.2.2.1, h.2.2.2, by decide⟩

/-- C10: for a stored upload and a negative `limit`, `get_raw_data` returns
all stored rows except the last `|limit|` — pandas `head` slices with
`iloc[:limit]` — i.e. the first `max 0 (record_count - |limit|)` records,
serialized. -/
theorem c10_negative_limit_head_semantics (store : Store) (fid : String)
    (n : Int) (e : StoredEntry) (hl : lookupStore store fid = some e)
    (hn : n < 0) :
    get_raw_data store fid n =
      .ok ((e.dataframe.take (e.dataframe.length - n.natAbs)).map serializeRow) ∧
    ((dfHead e.dataframe n).length : ℤ) =
      max 0 ((e.dataframe.length : ℤ) - (n.natAbs : ℤ)) := by
  have hneg : ¬ (0 ≤ n) := not_le.mpr hn
  constructor
  · simp only [get_raw_data, hl, dfHead, if_neg hneg]
  · unfold dfHead
    rw [if_neg hneg, List.length_take]
    omega

/-- A stored entry with two rows. -/
def c10Entry : StoredEntry :=
  ⟨"pizzas.csv", [c9Row, c9RowNoId], 2, calculate_metrics [c9Row, c9RowNoId]⟩

/-- A store holding one upload under id `"1700000000"`. -/
def c10Store : Store := [("1700000000", c10Entry)]

/-- Witness for C10: with 2 stored rows and `limit = -1`, the response is
the first serialized row only. -/
theorem c10_negative_limit_head_semantics_witness :
    lookupStore c10Store "1700000000" = some c10Entry ∧
    (-1 : Int) < 0 ∧
    get_raw_data c10Store "1700000000" (-1) = .ok [serializeRow c9Row] ∧
    ((dfHead c10Entry.dataframe (-1)).length : ℤ) =
      max 0 ((c10Entry.dataframe.length : ℤ) - (((-1 : Int)).natAbs : ℤ)) := by
  have hl : lookupStore c10Store "1700000000" = some c10Entry := by
    simp [c10Store, lookupStore]
  have h := c10_negative_limit_head_semantics c10Store "1700000000" (-1)
    c10Entry hl (by decide)
  exact ⟨hl, by decide, h.1, h.2⟩
